import Mathlib

/-!
Verification of the `module-query` repository (harvardinformatics/module-query).

The development shallowly embeds the two command-line tools
`src/p3/apps/moduleQuery.py` (module-query) and `src/p3/apps/checkActivation.py`
(check-activation).  External collaborators are modelled as follows:

* the MySQL driver is modelled by an outcome oracle `Nat → Option Nat`
  (result of the i-th `MySQLdb.connect` call; `none` is a raised exception,
  `some h` is a connection handle);
* `json.loads` of the stored `report_text` column is modelled by the row
  carrying `Option BrDoc`: `some doc` is the parsed JSON object (fields that
  may be missing from the object are `Option`-valued), `none` is a document
  on which parsing raises;
* `os.system` is modelled by an exit-status oracle `String → Nat`
  (the command line mapped to the shell status; 0 is success);
* Python `textwrap.TextWrapper.fill` is modelled by `twFill` below, a greedy
  word-wrapping function implementing the stdlib algorithm (whitespace-run
  chunks, per-line drop of leading whitespace on non-first lines and of a
  trailing whitespace chunk, initial/subsequent indents, character-level
  breaking of over-long words).  The stdlib refinements `expand_tabs` and
  `break_on_hyphens` are not modelled; no claim depends on them.

Python 2 `dict` iteration order is unspecified; the embedding uses
insertion-ordered association lists.  No claim depends on the order in which
application blocks are emitted.
-/

namespace ModuleQuery

/-- Error kinds raised by the tools.  The source raises bare `Exception`
objects carrying a `user_msg` attribute (connection failures, report parse
failures) or lets a Python `KeyError` propagate (missing dictionary key). -/
inductive Fault where
  | connectionError (user_msg : String)
  | reportParseError (user_msg : String)
  | keyError (key : String)
deriving DecidableEq

/-- Model of a Python dictionary subscription `br[k]`: a missing key raises
`KeyError`. -/
def getKey {α : Type} (k : String) : Option α → Except Fault α
  | some v => .ok v
  | none => .error (.keyError k)

/-- Model of Python `','.join(l)`. -/
def joinComma : List String → String
  | [] => ""
  | [x] => x
  | x :: y :: rest => x ++ "," ++ joinComma (y :: rest)

/-- Number of occurrences of the two-character substring `%s` in a character
list (a `%s` cannot overlap another `%s`, so a sliding window counts exactly
the substring occurrences). -/
def countPS : List Char → Nat
  | c :: d :: rest => (if c = '%' ∧ d = 's' then 1 else 0) + countPS (d :: rest)
  | _ => 0

/-- Prefix check on character lists. -/
def startsWithL : List Char → List Char → Bool
  | [], _ => true
  | _ :: _, [] => false
  | a :: as, b :: bs => a == b && startsWithL as bs

/-- Substring check on character lists. -/
def containsSubL (pat : List Char) : List Char → Bool
  | [] => startsWithL pat []
  | c :: rest => startsWithL pat (c :: rest) || containsSubL pat rest

/-- Substring check on strings. -/
def containsSub (pat s : String) : Bool := containsSubL pat.data s.data

/-! ## Query builders

`fetchBuildReports` (moduleQuery.py lines 78-138) and `fetchBuildActivation`
(checkActivation.py lines 44-90) build the SQL text and the positional
parameter list before connecting.  The triple-quoted SQL literals are run
through `.translate(None, "\n")`, which deletes the newline characters and
keeps all other whitespace; the string constants below are those literals
with the newlines removed, written one source line per juxtaposed piece.
`.format(in_clause=...)` splices the placeholder list into `in ({in_clause})`,
so each template is `prefix ++ in_clause ++ suffix`. -/

/-- moduleQuery.py lines 89-99 (name-match mode), up to the IN-clause. -/
def sqlReportNamePre : String :=
  "        select" ++ "            br.*" ++ "        from"
  ++ "            build_report br" ++ "        where"
  ++ "            br.build_name like %s and"
  ++ "            br.build_stack_name in ("

/-- moduleQuery.py lines 89-99 (name-match mode), after the IN-clause. -/
def sqlReportNameSuf : String :=
  ")" ++ "        order by" ++ "            app_name, br.build_order" ++ "    "

/-- moduleQuery.py lines 102-112 (full-text mode), up to the IN-clause. -/
def sqlReportTextPre : String :=
  "        select" ++ "            br.*" ++ "        from"
  ++ "            build_report br" ++ "        where"
  ++ "            br.report_text like %s and"
  ++ "            br.build_stack_name in ("

/-- moduleQuery.py lines 102-112 (full-text mode), after the IN-clause. -/
def sqlReportTextSuf : String :=
  ")" ++ "        order by" ++ "            app_name, br.build_order" ++ "    "

/-- checkActivation.py lines 55-64, up to the IN-clause. -/
def sqlActivationPre : String :=
  "        select" ++ "            b.name, b.activation" ++ "        from"
  ++ "            build b"
  ++ "                inner join build_stack bs on bs.id = b.build_stack_id"
  ++ "        where" ++ "            b.name like %s and"
  ++ "            bs.name in ("

/-- checkActivation.py lines 55-64, after the IN-clause. -/
def sqlActivationSuf : String := ")" ++ "    "

/-- `format_strings = ','.join(['%s'] * len(build_stack_names))`
(moduleQuery.py line 88, checkActivation.py line 54). -/
def formatStrings (n : Nat) : String := joinComma (List.replicate n "%s")

/-- Query-building part of `fetchBuildReports` (moduleQuery.py lines 86-112
and 131-132): returns the SQL template and the bound parameter list
`wheres = [term] + build_stack_names` where `term = '%{}%'.format(search)`. -/
def fetchBuildReportsQuery (search : String) (build_stack_names : List String)
    (fulltext : Bool) : String × List String :=
  let term := "%" ++ search ++ "%"
  let format_strings := formatStrings build_stack_names.length
  let sql := if fulltext then sqlReportTextPre ++ format_strings ++ sqlReportTextSuf
    else sqlReportNamePre ++ format_strings ++ sqlReportNameSuf
  (sql, term :: build_stack_names)

/-- Query-building part of `fetchBuildActivation` (checkActivation.py lines
52-64 and 83-84). -/
def fetchBuildActivationQuery (search : String) (build_stack_names : List String) :
    String × List String :=
  let term := "%" ++ search ++ "%"
  let format_strings := formatStrings build_stack_names.length
  let sql := sqlActivationPre ++ format_strings ++ sqlActivationSuf
  (sql, term :: build_stack_names)

/-- The CLI layer obtains the flavor list with
`re.split(r'\s*,\s*', args.build_stacks)` (moduleQuery.py line 360,
checkActivation.py line 116): the string is cut at every comma, discarding
whitespace immediately around each comma (whitespace at the two ends of the
whole string is kept).  `skip` is true while consuming the whitespace that
follows a comma; `acc` is the current piece, reversed. -/
def splitFA (skip : Bool) (acc : List Char) : List Char → List (List Char)
  | [] => [acc.reverse]
  | c :: rest =>
    if skip ∧ c.isWhitespace then splitFA true acc rest
    else if c = ',' then (acc.dropWhile Char.isWhitespace).reverse :: splitFA true [] rest
    else splitFA false (c :: acc) rest

/-- Model of `re.split(r'\s*,\s*', s)`. -/
def splitFlavors (s : String) : List String :=
  (splitFA false [] s.data).map String.mk

/-! ## Helper lemmas for the query-shape claims -/

theorem strData_append (a b : String) : (a ++ b).data = a.data ++ b.data := rfl

theorem countPS_cons_skip (c : Char) (xs : List Char) (h : ¬ c = '%') :
    countPS (c :: xs) = countPS xs := by
  cases xs with
  | nil => simp [countPS]
  | cons d tl => simp [countPS, h]

theorem countPS_formatStrings : ∀ n : Nat, countPS (formatStrings n).data = n
  | 0 => rfl
  | 1 => rfl
  | n + 2 => by
    have ih := countPS_formatStrings (n + 1)
    have hsplit : formatStrings (n + 2) = "%s" ++ "," ++ formatStrings (n + 1) := by
      simp [formatStrings, List.replicate_succ, joinComma]
    rw [hsplit]
    have hdata : ("%s" ++ "," ++ formatStrings (n + 1)).data
        = '%' :: 's' :: ',' :: (formatStrings (n + 1)).data := rfl
    rw [hdata]
    have h1 : countPS ('%' :: 's' :: ',' :: (formatStrings (n + 1)).data)
        = 1 + countPS ('s' :: ',' :: (formatStrings (n + 1)).data) := by
      simp [countPS]
    rw [h1, countPS_cons_skip 's' _ (by decide), countPS_cons_skip ',' _ (by decide), ih]
    omega

theorem splitFA_length_pos : ∀ (l : List Char) (skip : Bool) (acc : List Char),
    1 ≤ (splitFA skip acc l).length := by
  intro l
  induction l with
  | nil => intro skip acc; simp [splitFA]
  | cons c rest ih =>
    intro skip acc
    by_cases h1 : skip ∧ c.isWhitespace
    · simpa [splitFA, h1] using ih true acc
    · by_cases h2 : c = ','
      · simp [splitFA, h1, h2]
      · simpa [splitFA, h1, h2] using ih false (c :: acc)

/-! ## Claim theorems: query builder shape -/

/-- C1: for a non-empty flavor list of length N, both query builders produce
an IN-clause holding exactly N `%s` placeholders, and a parameter list of
exactly N+1 entries: the wildcard-wrapped search term first, then the flavor
names in their original order. -/
theorem c1_query_shape (search : String) (names : List String) (ft : Bool)
    (h : names ≠ []) :
    countPS (formatStrings names.length).data = names.length
    ∧ (fetchBuildReportsQuery search names ft).2 = ("%" ++ search ++ "%") :: names
    ∧ (fetchBuildReportsQuery search names ft).2.length = names.length + 1
    ∧ (fetchBuildReportsQuery search names ft).1
        = (if ft then sqlReportTextPre ++ formatStrings names.length ++ sqlReportTextSuf
           else sqlReportNamePre ++ formatStrings names.length ++ sqlReportNameSuf)
    ∧ (fetchBuildActivationQuery search names).2 = ("%" ++ search ++ "%") :: names
    ∧ (fetchBuildActivationQuery search names).2.length = names.length + 1
    ∧ (fetchBuildActivationQuery search names).1
        = sqlActivationPre ++ formatStrings names.length ++ sqlActivationSuf := by
  refine ⟨countPS_formatStrings names.length, rfl, by simp [fetchBuildReportsQuery],
    rfl, rfl, by simp [fetchBuildActivationQuery], rfl⟩

theorem c1_query_shape_witness :
    countPS (formatStrings 2).data = 2
    ∧ (fetchBuildReportsQuery "x" ["a", "b"] false).2 = ["%x%", "a", "b"]
    ∧ (fetchBuildReportsQuery "x" ["a", "b"] false).2.length = 3 := by
  have h := c1_query_shape "x" ["a", "b"] false (by decide)
  exact ⟨h.1, h.2.1, h.2.2.1⟩

/-- C8: the SQL template text depends only on the number of flavor names and
the fulltext flag; the search string and the flavor values never appear in
the template, only in the separately returned parameter list. -/
theorem c8_template_value_independent (s1 s2 : String) (l1 l2 : List String)
    (ft : Bool) (h : l1.length = l2.length) :
    (fetchBuildReportsQuery s1 l1 ft).1 = (fetchBuildReportsQuery s2 l2 ft).1
    ∧ (fetchBuildActivationQuery s1 l1).1 = (fetchBuildActivationQuery s2 l2).1 := by
  constructor <;> simp [fetchBuildReportsQuery, fetchBuildActivationQuery, h]

theorem c8_template_value_independent_witness :
    (fetchBuildReportsQuery "alpha" ["x", "y"] true).1
      = (fetchBuildReportsQuery "' or 1=1 --" ["u", "v"] true).1 :=
  (c8_template_value_independent "alpha" "' or 1=1 --" ["x", "y"] ["u", "v"] true rfl).1

/-- C7 counterexample: with an empty flavor list the query builder performs no
rejection at all — it returns a well-formed result whose SQL text contains the
invalid empty IN-clause `in ()`, rather than raising an error before the query
is built. -/
theorem c7_counterexample :
    containsSub "in ()" (fetchBuildReportsQuery "x" [] false).1 = true
    ∧ (fetchBuildReportsQuery "x" [] false).2 = ["%x%"]
    ∧ containsSub "in ()" (fetchBuildActivationQuery "x" []).1 = true := by
  refine ⟨by decide, rfl, by decide⟩

/-- C7 amended: the code contains no emptiness check on the flavor list; the
builders accept an empty list and silently produce an empty IN-clause.  The
CLI layer nevertheless can never supply an empty list, because splitting the
`--flavors` argument always yields at least one (possibly empty-string) name. -/
theorem c7_amended (s : String) : 1 ≤ (splitFlavors s).length := by
  have h := splitFA_length_pos s.data false []
  simpa [splitFlavors] using h

/-! ## Connection manager

Both tools share the same retry loop (moduleQuery.py lines 114-128,
checkActivation.py lines 66-80):

    connection = None
    connection_attempts = 0
    while connection is None and connection_attempts < MAX_ATTEMPTS:
        try:
            connection = MySQLdb.connect(**SQL_DSN)
        except Exception as e:
            time.sleep(CONNECTION_WAIT)
            connection_attempts += 1
    if not connection:
        e = Exception()
        e.user_msg = 'Unable to connect to {host}'
        raise e

The driver is an outcome oracle: `outcomes i` is the result of the (i+1)-th
`MySQLdb.connect` call.  Note that the counter is incremented (and the
backoff sleep performed) only in the `except` branch, so the counter equals
the number of failed calls, which also equals the number of sleeps. -/

def MAX_ATTEMPTS : Nat := 3

def CONNECTION_WAIT : Nat := 2

/-- One run of the retry loop starting with counter value `k` and
`fuel = MAX_ATTEMPTS - k` remaining iterations.  Returns the final
`connection` together with the total number of `connect` calls made and the
total number of `time.sleep(CONNECTION_WAIT)` calls performed. -/
def connectLoop (outcomes : Nat → Option Nat) : Nat → Nat → Option Nat × Nat × Nat
  | _, 0 => (none, 0, 0)
  | k, fuel + 1 =>
    match outcomes k with
    | some c => (some c, 1, 0)
    | none =>
      let r := connectLoop outcomes (k + 1) fuel
      (r.1, r.2.1 + 1, r.2.2 + 1)

/-- The whole retry loop: counter starts at 0. -/
def connectAttempts (outcomes : Nat → Option Nat) : Option Nat × Nat × Nat :=
  connectLoop outcomes 0 MAX_ATTEMPTS

/-- `'Unable to connect to {}'.format(SQL_DSN["host"])` (moduleQuery.py
line 127, checkActivation.py line 79). -/
def connectionFailMsg (host : String) : String := "Unable to connect to " ++ host

/-- The post-loop check `if not connection: raise` — after the loop, a still
missing connection becomes a user-facing connection error naming the
configured host. -/
def getConnection (host : String) (outcomes : Nat → Option Nat) : Except Fault Nat :=
  match (connectAttempts outcomes).1 with
  | some c => .ok c
  | none => .error (.connectionError (connectionFailMsg host))

/-- C2: the connection manager makes at most 3 connect calls; if the first
three calls all fail it raises a connection error whose user-facing message
names the configured host (and has made exactly 3 calls, never a 4th); if the
k-th call succeeds (k ≤ 3) it returns that connection having made exactly k
calls, so no further attempt is made. -/
theorem c2_retry_policy (host : String) (outcomes : Nat → Option Nat) :
    (connectAttempts outcomes).2.1 ≤ 3
    ∧ ((∀ i, i < 3 → outcomes i = none) →
        getConnection host outcomes
          = .error (.connectionError ("Unable to connect to " ++ host))
        ∧ (connectAttempts outcomes).2.1 = 3)
    ∧ (∀ k c, k < 3 → (∀ i, i < k → outcomes i = none) → outcomes k = some c →
        getConnection host outcomes = .ok c
        ∧ (connectAttempts outcomes).2.1 = k + 1) := by
  refine ⟨?_, ?_, ?_⟩
  · cases h0 : outcomes 0 <;> cases h1 : outcomes 1 <;> cases h2 : outcomes 2 <;>
      simp [connectAttempts, connectLoop, MAX_ATTEMPTS, h0, h1, h2]
  · intro hall
    have h0 := hall 0 (by omega)
    have h1 := hall 1 (by omega)
    have h2 := hall 2 (by omega)
    constructor <;>
      simp [getConnection, connectAttempts, connectLoop, MAX_ATTEMPTS,
        connectionFailMsg, h0, h1, h2]
  · intro k c hk hprev hsucc
    interval_cases k
    · constructor <;>
        simp [getConnection, connectAttempts, connectLoop, MAX_ATTEMPTS, hsucc]
    · have h0 := hprev 0 (by omega)
      constructor <;>
        simp [getConnection, connectAttempts, connectLoop, MAX_ATTEMPTS, h0, hsucc]
    · have h0 := hprev 0 (by omega)
      have h1 := hprev 1 (by omega)
      constructor <;>
        simp [getConnection, connectAttempts, connectLoop, MAX_ATTEMPTS, h0, h1, hsucc]

theorem c2_retry_policy_witness :
    (getConnection "rcdb-internal" (fun _ => none)
        = .error (.connectionError "Unable to connect to rcdb-internal")
      ∧ (connectAttempts (fun _ => none)).2.1 = 3)
    ∧ (getConnection "rcdb-internal" (fun i => if i = 1 then some 7 else none) = .ok 7
      ∧ (connectAttempts (fun i => if i = 1 then some 7 else none)).2.1 = 2) := by
  constructor
  · exact (c2_retry_policy "rcdb-internal" (fun _ => none)).2.1
      (fun i _ => rfl)
  · exact (c2_retry_policy "rcdb-internal" (fun i => if i = 1 then some 7 else none)).2.2
      1 7 (by omega) (fun i hi => by interval_cases i <;> rfl) rfl

/-- C9: the fixed backoff sleep is performed inside the `except` branch, hence
after every failed attempt including the final one: when all 3 attempts fail
the loop performs 3 sleeps — 6 time units in total — before the connection
error is raised. -/
theorem c9_backoff_after_final_failure (outcomes : Nat → Option Nat)
    (h : ∀ i, i < 3 → outcomes i = none) :
    connectAttempts outcomes = (none, 3, 3)
    ∧ (connectAttempts outcomes).2.2 * CONNECTION_WAIT = 6 := by
  have h0 := h 0 (by omega)
  have h1 := h 1 (by omega)
  have h2 := h 2 (by omega)
  constructor <;>
    simp [connectAttempts, connectLoop, MAX_ATTEMPTS, CONNECTION_WAIT, h0, h1, h2]

theorem c9_backoff_after_final_failure_witness :
    connectAttempts (fun _ => none) = (none, 3, 3)
    ∧ (connectAttempts (fun _ => none)).2.2 * CONNECTION_WAIT = 6 :=
  c9_backoff_after_final_failure (fun _ => none) (fun i _ => rfl)

/-! ## Model of `textwrap.TextWrapper.fill`

The renderers wrap text with `textwrap.TextWrapper(width, initial_indent,
subsequent_indent)` (and in the detail report one wrapper additionally sets
`replace_whitespace=False`).  The stdlib algorithm: optionally replace each
whitespace character by a space, split the text into maximal runs of
whitespace / non-whitespace (chunks), then greedily pack chunks into lines of
at most `width` columns including the indent (`initial_indent` on the first
emitted line, `subsequent_indent` afterwards), dropping a leading whitespace
chunk on every line after the first and a trailing whitespace chunk on every
line, breaking a chunk longer than the available width at the width.  The
stdlib refinements `expand_tabs` and `break_on_hyphens` are not modelled. -/

def isWs (c : Char) : Bool :=
  c == ' ' || c == '\t' || c == '\n' || c == '\r' || c == '\x0b' || c == '\x0c'

/-- `replace_whitespace`: each whitespace character becomes a space. -/
def replaceWsChars (l : List Char) : List Char :=
  l.map (fun c => if isWs c then ' ' else c)

/-- Split into maximal runs of characters of the same whitespace-ness;
`cls` is the class of the run being accumulated in `acc` (reversed). -/
def chunksAux (cls : Bool) (acc : List Char) : List Char → List (List Char)
  | [] => [acc.reverse]
  | c :: rest =>
    if isWs c == cls then chunksAux cls (c :: acc) rest
    else acc.reverse :: chunksAux (isWs c) [c] rest

/-- The chunk list of a text. -/
def chunks : List Char → List (List Char)
  | [] => []
  | c :: rest => chunksAux (isWs c) [c] rest

def wsChunk (ch : List Char) : Bool := ch.all isWs

/-- Greedily take chunks while the line stays within `w` columns;
returns the taken chunks and the remainder. -/
def takeLine (w : Nat) : Nat → List (List Char) → List (List Char) × List (List Char)
  | _, [] => ([], [])
  | len, ch :: rest =>
    if len + ch.length ≤ w then
      let p := takeLine w (len + ch.length) rest
      (ch :: p.1, p.2)
    else ([], ch :: rest)

/-- Drop the trailing chunk of a line if it is whitespace. -/
def dropLastWsChunk (l : List (List Char)) : List (List Char) :=
  match l.reverse with
  | ch :: rest => if wsChunk ch then rest.reverse else l
  | [] => l

/-- The line-building loop of `_wrap_chunks`; `emitted` records whether a
line has been emitted yet (Python: `lines` non-empty).  `fuel` bounds the
iteration count (each iteration consumes at least one chunk or one character
of an over-long chunk). -/
def wrapAux (width : Nat) (ii si : List Char) : Nat → Bool → List (List Char) → List (List Char)
  | 0, _, _ => []
  | _, _, [] => []
  | fuel + 1, emitted, first :: rest =>
    let indent := if emitted then si else ii
    let w := width - indent.length
    let chs1 := if emitted && wsChunk first then rest else first :: rest
    let p := takeLine w 0 chs1
    let q :=
      match p.1, p.2 with
      | [], ch :: rest2 =>
        if w < ch.length then
          let m := if w = 0 then 1 else w
          ([ch.take m], ch.drop m :: rest2)
        else ([], ch :: rest2)
      | cur, rem => (cur, rem)
    let cur := dropLastWsChunk q.1
    if cur = [] then wrapAux width ii si fuel emitted q.2
    else (indent ++ cur.flatten) :: wrapAux width ii si fuel true q.2

/-- Model of `TextWrapper(width=width, initial_indent=ii,
subsequent_indent=si, replace_whitespace=replace).fill(text)`. -/
def twFill (width : Nat) (ii si : String) (replace : Bool) (text : String) : String :=
  let t := if replace then replaceWsChars text.data else text.data
  let chs := chunks t
  String.intercalate "\n"
    ((wrapAux width ii.data si.data (t.length + chs.length + 8) false chs).map String.mk)

/-! ## Build report data model

A `build_report` row is a column dictionary whose `report_text` column is a
serialized JSON document.  The renderers only touch `report_text`, so the row
model carries just that column; `json.loads` is modelled by the row holding
`some doc` (the parsed object) or `none` (a document on which parsing
raises).  Each field of the object is `Option`-valued: `none` is a key absent
from the object (a JSON `null` behaves identically in every guard the source
applies, since `None` is falsy). -/

structure BrDoc where
  title : Option String
  name : Option String
  description : Option String
  activation : Option String
  build_stack : Option String
  run_dependencies : Option (List String)
  comments : Option String
  build_stack_activation : Option String
  preferred_build : Option Bool
deriving DecidableEq

structure BuildReportRow where
  report_text : Option BrDoc
deriving DecidableEq

/-- `e.user_msg` attached when `json.loads` raises (moduleQuery.py lines
152-154 and 259-261). -/
def parseFailMsg : String :=
  "Unable to parse the build report for this module.  Please report to rchelp."

/-- `json.loads(buildreport["report_text"])` with the source `except` clause:
failure is re-raised carrying the user-facing message. -/
def parseReport (row : BuildReportRow) : Except Fault BrDoc :=
  match row.report_text with
  | some br => .ok br
  | none => .error (.reportParseError parseFailMsg)

/-! ## Detail report (moduleQuery.py lines 141-224) -/

/-- The fixed `textmargin = 6` indent string. -/
def marginStr : String := "      "

/-- `printDetailReport(buildreport, terminalsize)`: renders the single-build
report, or fails on a malformed document / missing key.  `print(report)` is
modelled by returning the report string.  Key accesses occur in source
order: `title` (line 173), `run_dependencies` (line 177), the guarded
`comments` (line 185) and `build_stack_activation`/`build_stack` (lines
193-197), then the `.format` arguments `name`, `description`, `activation`,
`build_stack` (lines 213-222). -/
def printDetailReport (buildreport : BuildReportRow) (terminalsize : Nat) :
    Except Fault String := do
  let ts := if terminalsize = 0 then 80 else terminalsize
  let br ← parseReport buildreport
  let width := ts - 2
  let textwidth := width - 6 * 2
  let border := String.mk (List.replicate width '-')
  let app_name ← getKey "title" br.title
  let rdeps ← getKey "run_dependencies" br.run_dependencies
  let dependencymessage :=
    if rdeps ≠ [] then
      "\n    This module also loads:\n"
        ++ twFill textwidth marginStr marginStr false (String.intercalate " " rdeps) ++ "\n"
    else ""
  let commentsmessage :=
    match br.comments with
    | some c =>
      if c ≠ "" ∧ c.trim ≠ "" then
        "\n    Build comments:\n" ++ twFill textwidth marginStr marginStr false c ++ "\n"
      else ""
    | none => ""
  let buildstackactivationmessage ←
    match br.build_stack_activation with
    | some a =>
      if a ≠ "" then do
        let bs ← getKey "build_stack" br.build_stack
        pure ("\n    " ++ bs ++ " activation:\n"
          ++ twFill textwidth marginStr marginStr false a ++ "\n")
      else pure ""
    | none => pure ""
  let build_name ← getKey "name" br.name
  let descr ← getKey "description" br.description
  let activation ← getKey "activation" br.activation
  let build_stack ← getKey "build_stack" br.build_stack
  pure ("\n" ++ border ++ "\n  " ++ app_name ++ " : " ++ build_name ++ "\n" ++ border
    ++ "\n    Build flavor: " ++ build_stack
    ++ "\n    Description:\n" ++ twFill textwidth marginStr marginStr true descr
    ++ "\n" ++ commentsmessage
    ++ "\n    This module can be loaded as follows:\n      "
    ++ String.replace activation "\n" "\n      "
    ++ "\n" ++ dependencymessage
    ++ "\n" ++ buildstackactivationmessage
    ++ "\n\n")

/-! ## Consolidated report (moduleQuery.py lines 227-327)

The first loop accumulates, per application title, the description (last one
wins) and, per build stack, the wrapped version lines.  The variables
`moduletitle`, `buildstack`, `preferredbuild` and `preferredbuildexplanation`
are plain loop variables: after the loop, the rendering uses whatever values
the LAST processed row left in them.  Python 2 dictionaries iterate in an
unspecified order; the association lists below use insertion order. -/

def legendText : String := "* denotes preferred build."

/-- `"{moduletitle:.<40}"`: left-justified, dot-padded to 40 columns. -/
def dotPad40 (s : String) : String :=
  s ++ String.mk (List.replicate (40 - s.length) '.')

/-- The version string of one build (moduleQuery.py lines 280-285):
margin, optional `* ` preferred marker, dot-padded module title, one space,
build comments. -/
def versionStr (pb : Bool) (moduletitle buildcomments : String) : String :=
  marginStr ++ (if pb then "* " else "") ++ dotPad40 moduletitle ++ " " ++ buildcomments

/-- The guarded comments value (lines 271-273): the raw comments string when
the key is present, truthy and non-blank after stripping, otherwise empty. -/
def commentsValue : Option String → String
  | some s => if s ≠ "" ∧ s.trim ≠ "" then s else ""
  | none => ""

/-- Accumulator of the first loop.  `apps` maps application title to
(description, build stacks), each stack mapping to its version lines;
the three loose fields are the loop-leaked variables. -/
structure ConsAcc where
  apps : List (String × String × List (String × List String))
  moduletitle : String
  buildstack : String
  explanationStr : String
deriving DecidableEq

/-- `if app_name not in apps: apps[app_name] = {...}` (lines 264-266). -/
def consUpsert (apps : List (String × String × List (String × List String)))
    (app_name : String) : List (String × String × List (String × List String)) :=
  if apps.any (fun p => p.1 == app_name) then apps else apps ++ [(app_name, "", [])]

/-- `apps[app_name]["description"] = br["description"]` (line 267). -/
def consSetDesc (apps : List (String × String × List (String × List String)))
    (app_name desc : String) : List (String × String × List (String × List String)) :=
  apps.map (fun p => if p.1 == app_name then (p.1, desc, p.2.2) else p)

/-- `defaultdict(list)` append under a key. -/
def stacksAppend (bss : List (String × List String)) (stack line : String) :
    List (String × List String) :=
  if bss.any (fun q => q.1 == stack) then
    bss.map (fun q => if q.1 == stack then (q.1, q.2 ++ [line]) else q)
  else bss ++ [(stack, [line])]

/-- `apps[app_name]["build_stacks"][br["build_stack"]].append(...)`
(line 287). -/
def consAddLine (apps : List (String × String × List (String × List String)))
    (app_name stack line : String) : List (String × String × List (String × List String)) :=
  apps.map (fun p =>
    if p.1 == app_name then (p.1, p.2.1, stacksAppend p.2.2 stack line) else p)

/-- The body of the accumulation loop (lines 254-287) for one row. -/
def processRow (textwidth : Nat) (st : ConsAcc) (row : BuildReportRow) :
    Except Fault ConsAcc := do
  let br ← parseReport row
  let app_name ← getKey "title" br.title
  let apps0 := consUpsert st.apps app_name
  let desc ← getKey "description" br.description
  let apps1 := consSetDesc apps0 app_name desc
  let moduletitle ← getKey "name" br.name
  let buildstack ← getKey "build_stack" br.build_stack
  let buildcomments := commentsValue br.comments
  let pb ← getKey "preferred_build" br.preferred_build
  let explanationStr := if pb then legendText else ""
  let vstr := versionStr pb moduletitle buildcomments
  let line := twFill textwidth marginStr (String.mk (List.replicate 58 ' ')) true vstr
  let apps2 := consAddLine apps1 app_name buildstack line
  pure ⟨apps2, moduletitle, buildstack, explanationStr⟩

/-- The whole accumulation loop over the rows. -/
def consFold (textwidth : Nat) (rows : List BuildReportRow) : Except Fault ConsAcc :=
  rows.foldlM (processRow textwidth) ⟨[], "", "", ""⟩

/-- The `Versions:` body of one application block (lines 290-294): per build
stack, the wrapped stack label followed by its version lines, all joined by
newlines. -/
def renderStacks (textwidth : Nat) (bss : List (String × List String)) : String :=
  String.intercalate "\n" (bss.map (fun q =>
    String.intercalate "\n"
      (twFill textwidth marginStr (String.mk (List.replicate 30 ' ')) true q.1 :: q.2)))

/-- One application block (lines 296-326).  `exampleName` (the source
variable `example`), `exampleflavor` and `explanation` are the loop-leaked
`moduletitle`, `buildstack` and `preferredbuildexplanation` values: the same
for every block. -/
def renderApp (border : String) (textwidth : Nat)
    (exampleName exampleflavor explanation : String)
    (p : String × String × List (String × List String)) : String :=
  "\n" ++ border ++ "\n  " ++ p.1 ++ "\n" ++ border
  ++ "\n    Description:\n" ++ twFill textwidth marginStr marginStr true p.2.1
  ++ "\n\n    Versions:\n" ++ renderStacks textwidth p.2.2
  ++ "\n\n\n    To find detailed information about a module, search the full name.\n\n      module-query "
  ++ exampleName
  ++ "\n\n    You may need to specify the build \"flavor\" to get a single record\n\n      module-query "
  ++ exampleName ++ " --flavor '" ++ exampleflavor
  ++ "'\n\n    " ++ explanation ++ "\n\n\n    "

/-- Terminal width fallback (lines 231-232). -/
def consTermWidth (terminalsize : Nat) : Nat := if terminalsize = 0 then 80 else terminalsize

/-- `width = terminalsize - 2` (line 235). -/
def consWidth (terminalsize : Nat) : Nat := consTermWidth terminalsize - 2

/-- `textwidth = width - textmargin * 2` (line 242). -/
def consTextwidth (terminalsize : Nat) : Nat := consWidth terminalsize - 6 * 2

/-- `border = "-" * width` (line 246). -/
def consBorder (terminalsize : Nat) : String :=
  String.mk (List.replicate (consWidth terminalsize) '-')

/-- `printConsolidatedReport(buildreports, terminalsize)`: the accumulation
loop followed by one printed block per application.  The `print(report)`
calls are modelled by returning the list of block strings. -/
def printConsolidatedReport (buildreports : List BuildReportRow) (terminalsize : Nat) :
    Except Fault (List String) := do
  let st ← consFold (consTextwidth terminalsize) buildreports
  pure (st.apps.map
    (renderApp (consBorder terminalsize) (consTextwidth terminalsize)
      st.moduletitle st.buildstack st.explanationStr))

/-! ## module-query main (moduleQuery.py lines 330-393) -/

/-- The zero-match message written to standard error (moduleQuery.py line
375, checkActivation.py line 123):
`"\nUnable to find a match for '%s' \nsearch was limited to build flavors %s\n\n"`
with the search term and `', '.join(build_stack_names)` substituted. -/
def noMatchMsg (search : String) (flavors : List String) : String :=
  "\nUnable to find a match for '"
    ++ (search ++ ("' \nsearch was limited to build flavors "
      ++ (String.intercalate ", " flavors ++ "\n\n")))

/-- The user-facing text of the generic `except` handler (lines 387-391):
exceptions carrying `user_msg` print it; a bare `KeyError` prints
`str(e)` (the quoted key) followed by a traceback, abbreviated here to the
quoted key. -/
def faultMsg : Fault → String
  | .connectionError m => m
  | .reportParseError m => m
  | .keyError k => "'" ++ k ++ "'"

/-- Observable outcome of one `main` run: the returned exit code, the
reports printed to standard output, and the message written to standard
error (if any). -/
structure QueryOutcome where
  exitCode : Nat
  reports : List String
  errMsg : Option String
deriving DecidableEq

/-- `main` of module-query after argument parsing (lines 372-393), as a
function of the outcome of `fetchBuildReports` (a fault from the connection
manager or the row list), the search term, the flavor list and the detected
terminal size: zero rows exits 1 with the no-match message; one row prints
the detail report; more rows print the consolidated report; any raised
fault — including a renderer fault — is caught and exits 2. -/
def moduleQueryMain (fetch : Except Fault (List BuildReportRow)) (search : String)
    (flavors : List String) (terminalsize : Nat) : QueryOutcome :=
  match fetch with
  | .error e => ⟨2, [], some (faultMsg e)⟩
  | .ok [] => ⟨1, [], some (noMatchMsg search flavors)⟩
  | .ok [r] =>
    match printDetailReport r terminalsize with
    | .ok rep => ⟨0, [rep], none⟩
    | .error e => ⟨2, [], some (faultMsg e)⟩
  | .ok rs =>
    match printConsolidatedReport rs terminalsize with
    | .ok reps => ⟨0, reps, none⟩
    | .error e => ⟨2, [], some (faultMsg e)⟩

/-- C3: dispatch of module-query `main`: an empty result exits 1 after
writing a message naming the search term and the flavors to standard error,
printing no report; exactly one row prints the detail report and exits 0;
more than one row prints the consolidated report and exits 0; any other
fault — a fetch fault or a renderer fault — exits 2. -/
theorem c3_main_dispatch (search : String) (flavors : List String) (ts : Nat) :
    (moduleQueryMain (.ok []) search flavors ts
        = ⟨1, [], some (noMatchMsg search flavors)⟩)
    ∧ (∃ a b, noMatchMsg search flavors = a ++ (search ++ b))
    ∧ (∃ a b, noMatchMsg search flavors = a ++ (String.intercalate ", " flavors ++ b))
    ∧ (∀ r rep, printDetailReport r ts = .ok rep →
        moduleQueryMain (.ok [r]) search flavors ts = ⟨0, [rep], none⟩)
    ∧ (∀ r1 r2 rest reps,
        printConsolidatedReport (r1 :: r2 :: rest) ts = .ok reps →
        moduleQueryMain (.ok (r1 :: r2 :: rest)) search flavors ts = ⟨0, reps, none⟩)
    ∧ (∀ e, moduleQueryMain (.error e) search flavors ts = ⟨2, [], some (faultMsg e)⟩)
    ∧ (∀ r e, printDetailReport r ts = .error e →
        moduleQueryMain (.ok [r]) search flavors ts = ⟨2, [], some (faultMsg e)⟩)
    ∧ (∀ r1 r2 rest e,
        printConsolidatedReport (r1 :: r2 :: rest) ts = .error e →
        moduleQueryMain (.ok (r1 :: r2 :: rest)) search flavors ts
          = ⟨2, [], some (faultMsg e)⟩) := by
  refine ⟨rfl, ⟨"\nUnable to find a match for '", _, rfl⟩, ?_, ?_, ?_, fun e => rfl, ?_, ?_⟩
  · refine ⟨"\nUnable to find a match for '" ++ search
      ++ "' \nsearch was limited to build flavors ", "\n\n", ?_⟩
    simp [noMatchMsg, String.append_assoc]
  · intro r rep h
    simp [moduleQueryMain, h]
  · intro r1 r2 rest reps h
    simp [moduleQueryMain, h]
  · intro r e h
    simp [moduleQueryMain, h]
  · intro r1 r2 rest e h
    simp [moduleQueryMain, h]

/-- A well-formed single-row input used to instantiate C3. -/
def c3Doc : BrDoc :=
  ⟨some "Amber", some "Amber/16-fasrc01", some "A molecular dynamics package",
    some "module load Amber/16-fasrc01", some "HeLmod CentOS 7",
    some ["gcc/4.8.2"], none, none, some true⟩

theorem c3_main_dispatch_witness :
    moduleQueryMain (.ok []) "foo" ["Easy Build"] 80
        = ⟨1, [], some (noMatchMsg "foo" ["Easy Build"])⟩
    ∧ moduleQueryMain (.ok [⟨some c3Doc⟩]) "foo" ["Easy Build"] 80
        = ⟨0, [(printDetailReport ⟨some c3Doc⟩ 80).toOption.getD ""], none⟩
    ∧ moduleQueryMain (.ok [⟨none⟩]) "foo" ["Easy Build"] 80
        = ⟨2, [], some (faultMsg (.reportParseError parseFailMsg))⟩ := by
  have h := c3_main_dispatch "foo" ["Easy Build"] 80
  refine ⟨h.1, ?_, ?_⟩
  · exact h.2.2.2.1 ⟨some c3Doc⟩ ((printDetailReport ⟨some c3Doc⟩ 80).toOption.getD "")
      (by rfl)
  · exact h.2.2.2.2.2.2.1 ⟨none⟩ (.reportParseError parseFailMsg) rfl

/-! ## check-activation main (checkActivation.py lines 93-146) -/

/-- A row of the `build`/`build_stack` join: `b.name, b.activation`. -/
structure Build where
  name : String
  activation : String
deriving DecidableEq

/-- `verbosestr` (checkActivation.py lines 126-128): output is redirected
away unless verbose. -/
def verbosestrOf (verbose : Bool) : String :=
  if verbose then "" else " 2> /dev/null 1> /dev/null"

/-- `"module purge && {} {}".format(build["activation"], verbosestr)`
(line 132): the purge and the activation run as one combined shell
command. -/
def activationCommand (activation verbosestr : String) : String :=
  "module purge && " ++ (activation ++ (" " ++ verbosestr))

/-- `"Attempting {} for build {}... "` (line 131). -/
def attemptLine (b : Build) : String :=
  "Attempting " ++ (b.activation ++ (" for build " ++ (b.name ++ "... ")))

/-- The standard-output line of one build (lines 130-134): Success exactly
when `os.system` returns 0 for the combined command. -/
def reportLine (exec : String → Nat) (verbose : Bool) (b : Build) : String :=
  attemptLine b
    ++ ((if exec (activationCommand b.activation (verbosestrOf verbose)) = 0
        then "Success" else "Fail") ++ "\n")

/-- The per-build loop (lines 129-134): one line per build, in order.  The
final `os.system("module purge")` (line 136) writes nothing to standard
output and its status is ignored. -/
def runActivations (exec : String → Nat) (verbose : Bool) (builds : List Build) :
    List String :=
  builds.map (reportLine exec verbose)

structure CheckOutcome where
  exitCode : Nat
  out : List String
  errMsg : Option String
deriving DecidableEq

/-- `main` of check-activation after argument parsing (lines 120-146), as a
function of the fetch outcome, the `os.system` status oracle, the verbose
flag, the search term and the flavor list. -/
def checkActivationMain (fetch : Except Fault (List Build)) (exec : String → Nat)
    (verbose : Bool) (search : String) (flavors : List String) : CheckOutcome :=
  match fetch with
  | .error e => ⟨2, [], some (faultMsg e)⟩
  | .ok [] => ⟨1, [], some (noMatchMsg search flavors)⟩
  | .ok builds => ⟨0, runActivations exec verbose builds, none⟩

/-- Left cancellation for string append. -/
theorem strAppend_left_cancel (a b c : String) (h : a ++ b = a ++ c) : b = c := by
  apply String.ext
  have hd : a.data ++ b.data = a.data ++ c.data := by
    have h1 := congrArg String.data h
    simpa [strData_append] using h1
  exact List.append_cancel_left hd

/-- C6: for a non-empty build list the verifier emits, in order, one line
per build, reporting Success exactly when the executed invocation for that
build exits with status 0 and Fail for any other status; the process then
exits 0 however many builds failed, and exits 1 exactly when zero builds
matched. -/
theorem c6_verifier_outcomes (exec : String → Nat) (vb : Bool) (search : String)
    (flavors : List String) :
    (∀ builds : List Build, builds ≠ [] →
        checkActivationMain (.ok builds) exec vb search flavors
          = ⟨0, builds.map (reportLine exec vb), none⟩)
    ∧ (∀ builds : List Build,
        (checkActivationMain (.ok builds) exec vb search flavors).exitCode = 1
          ↔ builds = [])
    ∧ (∀ b : Build, reportLine exec vb b = attemptLine b ++ "Success\n"
        ↔ exec (activationCommand b.activation (verbosestrOf vb)) = 0)
    ∧ (∀ b : Build, exec (activationCommand b.activation (verbosestrOf vb)) ≠ 0 →
        reportLine exec vb b = attemptLine b ++ "Fail\n") := by
  refine ⟨?_, ?_, ?_, ?_⟩
  · intro builds hne
    cases builds with
    | nil => exact absurd rfl hne
    | cons b bs => rfl
  · intro builds
    cases builds with
    | nil => simp [checkActivationMain]
    | cons b bs => simp [checkActivationMain]
  · intro b
    constructor
    · intro h
      by_contra hne
      rw [reportLine, if_neg hne] at h
      have h2 := strAppend_left_cancel _ _ _ h
      have h3 : ("Fail" ++ "\n" : String) ≠ "Success\n" := by decide
      exact h3 h2
    · intro h
      rw [reportLine, if_pos h]
      rfl
  · intro b h
    rw [reportLine, if_neg h]
    rfl

theorem c6_verifier_outcomes_witness :
    checkActivationMain
        (.ok [⟨"b1", "module load b1"⟩, ⟨"b2", "module load b2"⟩])
        (fun c => if c = activationCommand "module load b1" (verbosestrOf false) then 0 else 1)
        false "b" ["Java"]
      = ⟨0,
          [reportLine (fun c => if c = activationCommand "module load b1" (verbosestrOf false) then 0 else 1) false ⟨"b1", "module load b1"⟩,
           reportLine (fun c => if c = activationCommand "module load b1" (verbosestrOf false) then 0 else 1) false ⟨"b2", "module load b2"⟩],
          none⟩
    ∧ reportLine (fun c => if c = activationCommand "module load b1" (verbosestrOf false) then 0 else 1) false ⟨"b2", "module load b2"⟩
        = attemptLine ⟨"b2", "module load b2"⟩ ++ "Fail\n" := by
  have h := c6_verifier_outcomes
    (fun c => if c = activationCommand "module load b1" (verbosestrOf false) then 0 else 1)
    false "b" ["Java"]
  refine ⟨h.1 _ (by decide), h.2.2.2 _ (by decide)⟩

/-- C10: the verifier runs, for every build, the single combined shell
command `module purge && <activation> <redirection>` (redirection empty when
verbose); the reported outcome is a function of the exit status of exactly
that combined command — Success precisely when it is 0 — so a failure of the
`module purge` part surfaces as that build's Fail. -/
theorem c10_combined_command (vb : Bool) (exec : String → Nat) (b : Build) :
    activationCommand b.activation (verbosestrOf vb)
        = "module purge && " ++ (b.activation ++ (" " ++ verbosestrOf vb))
    ∧ verbosestrOf false = " 2> /dev/null 1> /dev/null"
    ∧ verbosestrOf true = ""
    ∧ (reportLine exec vb b = attemptLine b ++ "Success\n"
        ↔ exec (activationCommand b.activation (verbosestrOf vb)) = 0)
    ∧ (∀ exec2 : String → Nat,
        exec (activationCommand b.activation (verbosestrOf vb))
            = exec2 (activationCommand b.activation (verbosestrOf vb)) →
        reportLine exec vb b = reportLine exec2 vb b) := by
  refine ⟨rfl, rfl, rfl, ?_, ?_⟩
  · constructor
    · intro h
      by_contra hne
      rw [reportLine, if_neg hne] at h
      have h2 := strAppend_left_cancel _ _ _ h
      have h3 : ("Fail" ++ "\n" : String) ≠ "Success\n" := by decide
      exact h3 h2
    · intro h
      rw [reportLine, if_pos h]
      rfl
  · intro exec2 h
    simp [reportLine, h]

/-! ## The preferred-build legend (claim C4)

In `printConsolidatedReport`, `preferredbuild` and
`preferredbuildexplanation` are reset and reassigned on every iteration of
the accumulation loop (lines 275-279) but only read afterwards, inside the
per-application rendering loop (line 315): every application block therefore
receives the legend of the LAST processed row, not of its own group. -/

theorem exc_bind_ok {ε α β : Type} (a : α) (f : α → Except ε β) :
    (Except.ok a : Except ε α) >>= f = f a := rfl

theorem exc_bind_error {ε α β : Type} (e : ε) (f : α → Except ε β) :
    (Except.error e : Except ε α) >>= f = Except.error e := rfl

/-- The `preferred_build` value of a row, when its document parses. -/
def rowPreferred (row : BuildReportRow) : Option Bool :=
  row.report_text.bind BrDoc.preferred_build

/-- The legend value left behind by processing a row list: that of the last
row (empty when there is no row). -/
def lastExplanation (rows : List BuildReportRow) : String :=
  match rows.getLast? with
  | some row =>
    match rowPreferred row with
    | some true => legendText
    | _ => ""
  | none => ""

theorem processRow_explanationStr (w : Nat) (st st' : ConsAcc) (row : BuildReportRow)
    (hok : processRow w st row = .ok st') :
    ∃ br pb, row.report_text = some br ∧ br.preferred_build = some pb
      ∧ st'.explanationStr = (if pb then legendText else "") := by
  obtain ⟨rt⟩ := row
  cases rt with
  | none => exact absurd hok (fun hc => by injection hc)
  | some br =>
    obtain ⟨f1, f2, f3, f4, f5, f6, f7, f8, f9⟩ := br
    cases f1 with
    | none => exact absurd hok (fun hc => by injection hc)
    | some t =>
      cases f3 with
      | none => exact absurd hok (fun hc => by injection hc)
      | some d =>
        cases f2 with
        | none => exact absurd hok (fun hc => by injection hc)
        | some n =>
          cases f5 with
          | none => exact absurd hok (fun hc => by injection hc)
          | some bs =>
            cases f9 with
            | none => exact absurd hok (fun hc => by injection hc)
            | some pb =>
              refine ⟨_, pb, rfl, rfl, ?_⟩
              injection hok with hok
              rw [← hok]

theorem consFold_explanationStr (rows : List BuildReportRow) :
    ∀ (w : Nat) (st0 st : ConsAcc),
    rows ≠ [] → List.foldlM (processRow w) st0 rows = .ok st →
    st.explanationStr = lastExplanation rows := by
  induction rows with
  | nil => intro w st0 st hne _; exact absurd rfl hne
  | cons r rest ih =>
    intro w st0 st _ hfold
    rw [List.foldlM_cons] at hfold
    cases hp : processRow w st0 r with
    | error e =>
      rw [hp, exc_bind_error] at hfold
      exact absurd hfold (fun hc => by injection hc)
    | ok st1 =>
      rw [hp, exc_bind_ok] at hfold
      cases rest with
      | nil =>
        rw [List.foldlM_nil] at hfold
        have hst : st1 = st := by injection hfold
        obtain ⟨br, pb, h1, h2, h3⟩ := processRow_explanationStr w st0 st1 r hp
        have hrp : rowPreferred r = some pb := by rw [rowPreferred, h1]; exact h2
        rw [← hst, h3]
        cases pb with
        | true => simp [lastExplanation, hrp]
        | false => simp [lastExplanation, hrp]
      | cons r2 rest2 =>
        have hres := ih w st1 st (by simp) hfold
        rw [hres, lastExplanation, lastExplanation, List.getLast?_cons_cons]

/-- C4 amended: a preferred build does get its version string marked with
`* ` right after the 6-column margin (and an unpreferred one is rendered
without the marker); the legend, however, is not per-application: every
application block carries the legend `* denotes preferred build.` exactly
when the LAST processed row was marked preferred, and otherwise the legend
is empty in every block. -/
theorem c4_amended (rows : List BuildReportRow) (ts : Nat) (blocks : List String)
    (h : printConsolidatedReport rows ts = .ok blocks) :
    (∀ t c, versionStr true t c = "      * " ++ (dotPad40 t ++ (" " ++ c)))
    ∧ (∀ t c, versionStr false t c = "      " ++ (dotPad40 t ++ (" " ++ c)))
    ∧ (∃ st, consFold (consTextwidth ts) rows = .ok st
        ∧ blocks = st.apps.map (renderApp (consBorder ts) (consTextwidth ts)
            st.moduletitle st.buildstack st.explanationStr)
        ∧ st.explanationStr = lastExplanation rows) := by
  refine ⟨?_, ?_, ?_⟩
  · intro t c
    show marginStr ++ (if true then "* " else "") ++ dotPad40 t ++ " " ++ c = _
    rw [if_pos rfl, String.append_assoc, String.append_assoc]
    rfl
  · intro t c
    show marginStr ++ (if false then "* " else "") ++ dotPad40 t ++ " " ++ c = _
    rw [if_neg (by simp), String.append_assoc, String.append_assoc]
    rfl
  · rw [printConsolidatedReport] at h
    cases hf : consFold (consTextwidth ts) rows with
    | error e =>
      rw [hf, exc_bind_error] at h
      exact absurd h (fun hc => by injection hc)
    | ok st =>
      rw [hf, exc_bind_ok] at h
      have hblocks : st.apps.map (renderApp (consBorder ts) (consTextwidth ts)
          st.moduletitle st.buildstack st.explanationStr) = blocks := by
        injection h
      refine ⟨st, rfl, hblocks.symm, ?_⟩
      cases rows with
      | nil =>
        have hst : (⟨[], "", "", ""⟩ : ConsAcc) = st := by
          rw [consFold, List.foldlM_nil] at hf
          injection hf
        rw [← hst]
        rfl
      | cons r rest =>
        exact consFold_explanationStr (r :: rest) (consTextwidth ts)
          ⟨[], "", "", ""⟩ st (by simp) hf

/-- Rows used for the C4 counterexample and witness: application `AppA` has
its (only) build marked preferred; application `AppB` has not.  `AppA` is
processed first, `AppB` last. -/
def c4DocA : BrDoc :=
  ⟨some "AppA", some "appa/1.0-fasrc01", some "First app", some "module load appa",
    some "HeLmod CentOS 7", some [], none, none, some true⟩

def c4DocB : BrDoc :=
  ⟨some "AppB", some "appb/2.0-fasrc01", some "Second app", some "module load appb",
    some "Easy Build", some [], none, none, some false⟩

set_option maxRecDepth 40000 in
/-- C4 counterexample: with `AppA` (preferred) processed before `AppB` (not
preferred), the rendered block of `AppA` does NOT include the legend
`* denotes preferred build.` even though a build in its group is marked
preferred — the legend everywhere follows the last processed row instead. -/
theorem c4_counterexample :
    (printConsolidatedReport [⟨some c4DocA⟩, ⟨some c4DocB⟩] 80).toOption.map
        (List.map (fun b => containsSub legendText b)) = some [false, false]
    ∧ c4DocA.preferred_build = some true
    ∧ c4DocB.preferred_build = some false := by
  refine ⟨by decide, rfl, rfl⟩

theorem c4_amended_witness :
    (∀ t c, versionStr true t c = "      * " ++ (dotPad40 t ++ (" " ++ c)))
    ∧ (∃ st, consFold (consTextwidth 80) [⟨some c4DocB⟩, ⟨some c4DocA⟩] = .ok st
        ∧ ((printConsolidatedReport [⟨some c4DocB⟩, ⟨some c4DocA⟩] 80).toOption.getD [])
            = st.apps.map (renderApp (consBorder 80) (consTextwidth 80)
                st.moduletitle st.buildstack st.explanationStr)
        ∧ st.explanationStr = lastExplanation [⟨some c4DocB⟩, ⟨some c4DocA⟩]) := by
  have h := c4_amended [⟨some c4DocB⟩, ⟨some c4DocA⟩] 80
    ((printConsolidatedReport [⟨some c4DocB⟩, ⟨some c4DocA⟩] 80).toOption.getD [])
    (by rfl)
  exact ⟨h.1, h.2.2⟩

theorem c10_combined_command_witness :
    activationCommand "module load X" (verbosestrOf false)
        = "module purge && " ++ ("module load X" ++ (" " ++ verbosestrOf false))
    ∧ reportLine (fun _ => 0) false ⟨"X", "module load X"⟩
        = attemptLine ⟨"X", "module load X"⟩ ++ "Success\n" := by
  have h := c10_combined_command false (fun _ => 0) ⟨"X", "module load X"⟩
  exact ⟨h.1, (h.2.2.2.1).mpr rfl⟩

/-! ## Required and optional report fields (claim C5)

The source tolerates a missing `comments` key (guard `"comments" in br`,
lines 185 and 272) and a missing `build_stack_activation` key (guard at line
193), but it subscripts `br["run_dependencies"]` directly (line 177),
`br["build_stack"]` directly (lines 204/221/269/287) and
`br["preferred_build"]` directly (line 277): those accesses raise `KeyError`
when the key is absent. -/

/-- Valid JSON containing exactly `title`, `name`, `description` and
`activation` — the four fields the spec calls required. -/
def c5DocMin : BrDoc :=
  ⟨some "AppC", some "appc/1.0-fasrc01", some "Third app",
    some "module load appc", none, none, none, none, none⟩

/-- The same document additionally carrying `build_stack` and
`run_dependencies`, still without `preferred_build`. -/
def c5DocNoPB : BrDoc :=
  ⟨some "AppC", some "appc/1.0-fasrc01", some "Third app",
    some "module load appc", some "Easy Build", some [], none, none, none⟩

/-- C5 counterexample: a document that is valid JSON with `title`, `name`,
`description` and `activation` present but `run_dependencies` absent makes
the detail renderer fail with a `KeyError` rather than defaulting to empty;
likewise, a document without `preferred_build` makes the consolidated
renderer fail.  Absence of those keys is not tolerated. -/
theorem c5_counterexample :
    printDetailReport ⟨some c5DocMin⟩ 80 = .error (.keyError "run_dependencies")
    ∧ printConsolidatedReport [⟨some c5DocNoPB⟩] 80
        = .error (.keyError "preferred_build") :=
  ⟨rfl, rfl⟩

/-- C5 amended: only the absence of `comments` and of
`build_stack_activation` is tolerated via default-empty handling.  Both
renderers succeed on a document with those two keys absent provided `title`,
`name`, `description`, `activation`, `build_stack`, `run_dependencies` and
(for the consolidated renderer) `preferred_build` are all present. -/
theorem c5_amended (t n d a bs : String) (rd : List String) (pb : Bool) :
    (∃ s, printDetailReport
        ⟨some ⟨some t, some n, some d, some a, some bs, some rd, none, none, some pb⟩⟩
        80 = .ok s)
    ∧ (∃ l, printConsolidatedReport
        [⟨some ⟨some t, some n, some d, some a, some bs, some rd, none, none, some pb⟩⟩]
        80 = .ok l) :=
  ⟨⟨_, rfl⟩, ⟨_, rfl⟩⟩

end ModuleQuery
